import Mathlib

/-!
Verification development for the ACC Issues Fetcher client
(`script.py`, the desktop variant, and `streamlit_app.py`, the web variant).

The Python code is shallowly embedded: JSON values become the inductive
`JVal`; plain dictionaries become association lists; `dict.get`,
truthiness, `str()`, `str.replace`, `str.startswith` and slicing are
modelled by small executable functions mirroring Python semantics on this
value universe; code that can raise returns `Except`, and the blanket
`try/except` handlers at call sites are explicit `match`es on that
`Except`.  Network calls are modelled by an oracle value (`NetOutcome`)
standing for the single HTTP round-trip each operation performs.
-/

/-- JSON-ish values as handled by the program: `null`, strings, arrays
and objects (Python dicts with string keys).  This is the value universe
over which the response-shape handling of the source is embedded. -/
inductive JVal where
  | null
  | str (s : String)
  | arr (xs : List JVal)
  | obj (fields : List (String × JVal))

/-- First-match association-list lookup, mirroring Python dict key access
(dict keys are unique, so first match is the only match). -/
def lookupField (fs : List (String × JVal)) (k : String) : Option JVal :=
  (fs.find? (fun kv => kv.1 == k)).map (fun kv => kv.2)

/-- Python truthiness on the embedded values: `None`, `""`, `[]` and
`{}` are falsy, everything else truthy. -/
def pyTruthy : JVal → Bool
  | .null => false
  | .str s => !s.isEmpty
  | .arr xs => !xs.isEmpty
  | .obj fs => !fs.isEmpty

/-- Python truthiness of an optional string (`None` and `""` falsy). -/
def optStrTruthy : Option String → Bool
  | none => false
  | some s => !s.isEmpty

/-- `v.get(k, d)`: succeeds on dicts, raises `AttributeError` on every
other value (modelled as `Except.error`). -/
def pyGet (v : JVal) (k : String) (d : JVal) : Except Unit JVal :=
  match v with
  | .obj fs => .ok ((lookupField fs k).getD d)
  | _ => .error ()

/-- `s.startswith(pre)` on Python strings. -/
def pyStartsWith (s pre : String) : Bool :=
  pre.data.isPrefixOf s.data

/-- `s[n:]` on Python strings (drop the first `n` code points). -/
def pyDrop (s : String) (n : Nat) : String :=
  ⟨s.data.drop n⟩

/-- Fuel-driven worker for `pyReplace`; the fuel is the length of the
string so it never runs out on the recursive calls, which always consume
at least one character when the pattern is non-empty. -/
def pyReplaceAux (pat rep : List Char) : Nat → List Char → List Char
  | _, [] => []
  | 0, s => s
  | n + 1, c :: rest =>
      if pat.isEmpty then c :: pyReplaceAux pat rep n rest
      else if pat.isPrefixOf (c :: rest) then
        rep ++ pyReplaceAux pat rep n ((c :: rest).drop pat.length)
      else c :: pyReplaceAux pat rep n rest

/-- `s.replace(pat, rep)` on Python strings: every non-overlapping
occurrence of `pat` is replaced left to right.  (Python treats an empty
pattern specially; the source only ever calls this with the fixed
non-empty pattern `"b360project."`.) -/
def pyReplace (s pat rep : String) : String :=
  ⟨pyReplaceAux pat.data rep.data s.data.length s.data⟩

mutual

/-- Python `repr` of an embedded value.  String escaping is not
modelled: the repository never feeds repr output back into any
decision. -/
def pyRepr : JVal → String
  | .null => "None"
  | .str s => "\x27" ++ s ++ "\x27"
  | .arr xs => "[" ++ pyReprArr xs ++ "]"
  | .obj fs => "\x7b" ++ pyReprFields fs ++ "\x7d"

/-- Comma-joined reprs of the elements of a Python list. -/
def pyReprArr : List JVal → String
  | [] => ""
  | [x] => pyRepr x
  | x :: y :: rest => pyRepr x ++ ", " ++ pyReprArr (y :: rest)

/-- Comma-joined `key: value` reprs of the entries of a Python dict. -/
def pyReprFields : List (String × JVal) → String
  | [] => ""
  | [(k, v)] => "\x27" ++ k ++ "\x27: " ++ pyRepr v
  | (k, v) :: kw :: rest =>
      "\x27" ++ k ++ "\x27: " ++ pyRepr v ++ ", " ++ pyReprFields (kw :: rest)

end

/-- Python `str()` of an embedded value: identity on strings, `"None"`
for `None`, `repr` for containers. -/
def pyStr : JVal → String
  | .null => "None"
  | .str s => s
  | v => pyRepr v

/-!
### OAuth callback handler and polling flow

Embeds `OAuth3LeggedHandler.do_GET` and the polling loop of
`Manual3LeggedAuth.authenticate` from `script.py` (the handler in
`streamlit_app.py` is byte-identical; its loop differs only in logging).
-/

/-- The outcome slots `Manual3LeggedAuth.start_callback_server` installs
on the HTTP server (`server.auth_code` / `server.auth_error`), both
initialised to `None`. -/
structure ServerState where
  auth_code : Option String
  auth_error : Option String
deriving DecidableEq, Repr

/-- What one `do_GET` invocation produces: the HTTP status it answers
with (`none` when the handler falls through without sending any
response) and the updated server outcome slots. -/
structure HandlerResult where
  status : Option Nat
  state : ServerState
deriving DecidableEq, Repr

/-- Lookup in a parsed query string, as produced by
`urllib.parse.parse_qs`: each present key maps to its list of values
(`parse_qs` never produces an empty value list, so `headD` below is
never exercised on its default). -/
def qlookup (query : List (String × List String)) (k : String) : Option (List String) :=
  (query.find? (fun kv => kv.1 == k)).map (fun kv => kv.2)

/-- `OAuth3LeggedHandler.do_GET`: on a path starting with `/callback`,
a `code` parameter wins and is recorded with a 200 answer; otherwise an
`error` parameter is recorded (joined with its description) with a 400
answer; otherwise the handler sends nothing at all.  Any other path is
answered 404.  The `state` query parameter is never consulted. -/
def do_GET (st : ServerState) (path : String) (query : List (String × List String)) :
    HandlerResult :=
  if pyStartsWith path "/callback" then
    match qlookup query "code" with
    | some vs => ⟨some 200, { st with auth_code := some (vs.headD "") }⟩
    | none =>
      match qlookup query "error" with
      | some vs =>
          let desc := ((qlookup query "error_description").getD ["Unknown error"]).headD ""
          ⟨some 400, { st with auth_error := some (vs.headD "" ++ ": " ++ desc) }⟩
      | none => ⟨none, st⟩
  else ⟨some 404, st⟩

/-- One incoming HTTP request to the local callback listener. -/
structure CallbackReq where
  path : String
  query : List (String × List String)

/-- Terminal outcomes of the polling loop in
`Manual3LeggedAuth.authenticate`: either the loop calls
`exchange_code_for_token` with the recorded code (the Exchanging step),
or it gives up on a recorded provider error, or the 300-second timeout
elapses (modelled as the request list running out). -/
inductive FlowStep where
  | exchanging (code : String)
  | failed
  | timedOut
deriving DecidableEq, Repr

/-- The polling loop: handle one request, then test `server.auth_code`
(Python truthiness) and `server.auth_error` in that order. -/
def runFlow : ServerState → List CallbackReq → FlowStep
  | _, [] => .timedOut
  | st, r :: rs =>
    let out := do_GET st r.path r.query
    if optStrTruthy out.state.auth_code then
      .exchanging (out.state.auth_code.getD "")
    else if optStrTruthy out.state.auth_error then
      .failed
    else
      runFlow out.state rs

/-- `Manual3LeggedAuth.authenticate` from a fresh callback server. -/
def authenticateFlow (reqs : List CallbackReq) : FlowStep :=
  runFlow ⟨none, none⟩ reqs

/-- The query parameters of `Manual3LeggedAuth.get_authorization_url`
(`script.py`): the issued `state` is the constant `"gui_auth_state"`. -/
def authorization_url_params (client_id : String) : List (String × String) :=
  [("response_type", "code"),
   ("client_id", client_id),
   ("redirect_uri", "http://localhost:8080/callback"),
   ("scope", "data:read data:write account:read code:all"),
   ("state", "gui_auth_state")]

/-!
### IssuesAPI: list operations

Embeds `IssuesAPI.get_issues` and `IssuesAPI.get_issue_types` from both
variants.  The two variants share the guard, the limit clamp, the query
parameters, the status dispatch and the `results`/`data` fallback;
`script.py` additionally inspects fetched records for console logging,
and that inspection can itself raise (caught by the same blanket
`except`, yielding the empty list).
-/

/-- Outcome of the single HTTP round-trip an operation performs: a
response with a status code and (parsed JSON) body, or an exception
raised during the request. -/
inductive NetOutcome where
  | resp (status : Nat) (body : JVal)
  | exn

/-- The query parameters of the issues GET (`url`, `params` in
`get_issues`): the clamped `limit`, plus `filter[issueTypeId]` /
`filter[status]` exactly when the corresponding argument is truthy. -/
structure IssuesRequest where
  containerId : String
  limit : Int
  filterIssueTypeId : Option String
  filterStatus : Option String
deriving DecidableEq, Repr

/-- Builds the outgoing request of `get_issues`: `if limit > 200:
limit = 200`, then optional filters guarded by Python truthiness. -/
def issuesRequest (container_id : String) (issue_type status_ : Option String)
    (limit : Int) : IssuesRequest :=
  { containerId := container_id
    limit := if limit > 200 then 200 else limit
    filterIssueTypeId := if optStrTruthy issue_type then issue_type else none
    filterStatus := if optStrTruthy status_ then status_ else none }

/-- The request of `get_issue_types` (no parameters beyond the URL). -/
structure TypesRequest where
  containerId : String
deriving DecidableEq, Repr

/-- The shared 200-branch extraction of both list operations:
`issues = response_data.get("results", [])` and, when that value is
falsy, `issues = response_data.get("data", [])`.  Raises
(`AttributeError`) when the body is not a dict. -/
def results_data_fallback (body : JVal) : Except Unit JVal :=
  match pyGet body "results" (.arr []) with
  | .error e => .error e
  | .ok issues =>
      if pyTruthy issues then .ok issues
      else pyGet body "data" (.arr [])

/-- The per-record debug inspection `script.py` performs on the first
three issues: `if "attributes" in issue` (raises on `None`), then
`.get` calls that raise unless the record is a dict whose
`attributes` value, if present, is itself a dict. -/
def probeIssue : JVal → Except Unit Unit
  | .obj fs =>
      match lookupField fs "attributes" with
      | some (.obj _) => .ok ()
      | some _ => .error ()
      | none => .ok ()
  | _ => .error ()

/-- Runs `probeIssue` over a list of records, stopping at the first
raise (as the `for` loop would). -/
def probeAll : List JVal → Except Unit Unit
  | [] => .ok ()
  | x :: rest =>
      match probeIssue x with
      | .ok _ => probeAll rest
      | .error e => .error e

/-- `len(issues)` / `issues[:3]` / the loop body over the slice, on an
arbitrary extracted value: a list probes its first three records, a
string iterates characters (all of which fail the `.get` calls), a dict
fails at the slice, `None` fails at `len`. -/
def probeSlice : JVal → Except Unit Unit
  | .arr xs => probeAll (xs.take 3)
  | .str s => if s.isEmpty then .ok () else .error ()
  | .obj _ => .error ()
  | .null => .error ()

/-- The whole 200 branch of `script.py`'s `get_issues`: extraction
followed by the logging inspection. -/
def script_issues_success (body : JVal) : Except Unit JVal :=
  match results_data_fallback body with
  | .error e => .error e
  | .ok issues =>
      match probeSlice issues with
      | .ok _ => .ok issues
      | .error e => .error e

/-- The per-record logging of `script.py`'s `get_issue_types`
(`issue_type.get("title", ...)` etc.): raises unless the record is a
dict. -/
def probeType : JVal → Except Unit Unit
  | .obj _ => .ok ()
  | _ => .error ()

/-- Runs `probeType` over every record. -/
def probeTypesAll : List JVal → Except Unit Unit
  | [] => .ok ()
  | x :: rest =>
      match probeType x with
      | .ok _ => probeTypesAll rest
      | .error e => .error e

/-- `enumerate(issue_types)` with the `.get` logging on every element:
a list probes all records, a string iterates characters and a dict its
keys (failing the `.get` unless empty), `None` is not iterable. -/
def typesIter : JVal → Except Unit Unit
  | .arr xs => probeTypesAll xs
  | .str s => if s.isEmpty then .ok () else .error ()
  | .obj fs => if fs.isEmpty then .ok () else .error ()
  | .null => .error ()

/-- The whole 200 branch of `script.py`'s `get_issue_types`. -/
def script_types_success (body : JVal) : Except Unit JVal :=
  match results_data_fallback body with
  | .error e => .error e
  | .ok ts =>
      match typesIter ts with
      | .ok _ => .ok ts
      | .error e => .error e

/-- `IssuesAPI.get_issues` (`script.py`).  Returns the Python value the
call produces together with the request it issued (`none` when the
`if not container_id` guard short-circuits before any URL is built).
Every non-200 status and every raise yields the empty list. -/
def get_issues_script (container_id issue_type status_ : Option String) (limit : Int)
    (out : NetOutcome) : JVal × Option IssuesRequest :=
  if optStrTruthy container_id then
    let req := issuesRequest (container_id.getD "") issue_type status_ limit
    (match out with
     | .resp status body =>
        if status = 200 then
          match script_issues_success body with
          | .ok v => v
          | .error _ => .arr []
        else .arr []
     | .exn => .arr [], some req)
  else (.arr [], none)

/-- `IssuesAPI.get_issues` (`streamlit_app.py`): identical except the
200 branch returns the extracted value without inspecting records. -/
def get_issues_stream (container_id issue_type status_ : Option String) (limit : Int)
    (out : NetOutcome) : JVal × Option IssuesRequest :=
  if optStrTruthy container_id then
    let req := issuesRequest (container_id.getD "") issue_type status_ limit
    (match out with
     | .resp status body =>
        if status = 200 then
          match results_data_fallback body with
          | .ok v => v
          | .error _ => .arr []
        else .arr []
     | .exn => .arr [], some req)
  else (.arr [], none)

/-- `IssuesAPI.get_issue_types` (`script.py`). -/
def get_issue_types_script (container_id : Option String) (out : NetOutcome) :
    JVal × Option TypesRequest :=
  if optStrTruthy container_id then
    (match out with
     | .resp status body =>
        if status = 200 then
          match script_types_success body with
          | .ok v => v
          | .error _ => .arr []
        else .arr []
     | .exn => .arr [], some ⟨container_id.getD ""⟩)
  else (.arr [], none)

/-- `IssuesAPI.get_issue_types` (`streamlit_app.py`). -/
def get_issue_types_stream (container_id : Option String) (out : NetOutcome) :
    JVal × Option TypesRequest :=
  if optStrTruthy container_id then
    (match out with
     | .resp status body =>
        if status = 200 then
          match results_data_fallback body with
          | .ok v => v
          | .error _ => .arr []
        else .arr []
     | .exn => .arr [], some ⟨container_id.getD ""⟩)
  else (.arr [], none)

/-- True of the network outcomes the failure policy covers: any non-200
status, or an exception during the request. -/
def netFails : NetOutcome → Bool
  | .resp s _ => s != 200
  | .exn => true

/-!
### IssuesAPI: container-id resolution

Embeds `IssuesAPI.get_project_container_id` (identical logic in both
variants): fetch the project detail, scan `attributes["scopes"]` for an
entry starting with `"b360project."` and return
`scope.replace("b360project.", "")`; otherwise strip a leading `"b."`
from the project id; otherwise, and on any failure, `None`.
-/

/-- The `for scope in scopes` loop body: the first string entry starting
with `"b360project."` wins and is returned with **every** occurrence of
the marker replaced by the empty string (`str.replace`); a non-string
entry raises at `.startswith`. -/
def scanScopes : List JVal → Except Unit (Option String)
  | [] => .ok none
  | .str s :: rest =>
      if pyStartsWith s "b360project." then
        .ok (some (pyReplace s "b360project." ""))
      else scanScopes rest
  | _ :: _ => .error ()

/-- Iterating the `scopes` value: a list yields its elements, a string
its characters (one-character strings, which never match the marker), a
dict its keys; `None` is not iterable and raises. -/
def iterScopes : JVal → Except Unit (Option String)
  | .arr xs => scanScopes xs
  | .str s => scanScopes (s.data.map (fun c => .str ⟨[c]⟩))
  | .obj fs => scanScopes (fs.map (fun kv => .str kv.1))
  | .null => .error ()

/-- The 200 branch of `get_project_container_id`, inside the blanket
`try`: the `.get` chain down to `scopes` (including the unused
`extension`/`ext_data` reads, which can raise), then the scope scan,
then the `"b."`-prefix fallback on the project id. -/
def detail_success (project_id : String) (body : JVal) : Except Unit (Option String) :=
  match pyGet body "data" (.obj []) with
  | .error e => .error e
  | .ok project_data =>
    match pyGet project_data "attributes" (.obj []) with
    | .error e => .error e
    | .ok attributes =>
      match pyGet attributes "extension" (.obj []) with
      | .error e => .error e
      | .ok extension =>
        match pyGet extension "data" (.obj []) with
        | .error e => .error e
        | .ok _ext_data =>
          match pyGet attributes "scopes" .null with
          | .error e => .error e
          | .ok scopes =>
            match (if pyTruthy scopes then iterScopes scopes else .ok none) with
            | .error e => .error e
            | .ok (some container_id) => .ok (some container_id)
            | .ok none =>
                .ok (if pyStartsWith project_id "b." then some (pyDrop project_id 2)
                     else none)

/-- `IssuesAPI.get_project_container_id`: `None` on any non-200 status
and on any raise; otherwise the 200 branch above.  (`hub_id` only
enters the URL.) -/
def get_project_container_id (hub_id project_id : String) (fetch : NetOutcome) :
    Option String :=
  let _ := hub_id
  match fetch with
  | .exn => none
  | .resp status body =>
      if status = 200 then
        match detail_success project_id body with
        | .ok r => r
        | .error _ => none
      else none

/-- A well-formed project-detail body per the vendor interface:
`{data: {attributes: {scopes: [...strings...]}}}`. -/
def mkDetailBody (scopes : List String) : JVal :=
  .obj [("data", .obj [("attributes", .obj [("scopes", .arr (scopes.map .str))])])]

/-!
### Flattening issues to export rows

Embeds `issues_to_dataframe` (identical in both variants): each issue
record becomes one row of twelve cells in the fixed column order ID,
Title, Description, Issue Type, Status, Priority, Created At,
Updated At, Assigned To, Created By, Location, Due Date.
-/

/-- `issue.get(k, d)` on a record already known to be a dict. -/
def pyGetField (fs : List (String × JVal)) (k : String) (d : JVal) : JVal :=
  (lookupField fs k).getD d

/-- The `attributes.get("issueType", {}).get("title", "")` cell of the
JSON:API branch: raises when the `issueType` value is not a dict. -/
def titleCellAttr (v : JVal) : Except Unit JVal :=
  match v with
  | .obj g => .ok (pyGetField g "title" (.str ""))
  | _ => .error ()

/-- The `... .get("name", "") if attributes.get(k) else ""` cells of the
JSON:API branch: falsy values give `""` without raising; truthy
non-dict values raise at `.get`. -/
def nameCellAttr (v : JVal) : Except Unit JVal :=
  if pyTruthy v then
    match v with
    | .obj g => .ok (pyGetField g "name" (.str ""))
    | _ => .error ()
  else .ok (.str "")

/-- The `issue.get(k, {}).get("title", "") if isinstance(...) else
str(issue.get(k, ""))` cell of the direct branch (never raises). -/
def titleCellDirect (fs : List (String × JVal)) (k : String) : JVal :=
  match pyGetField fs k .null with
  | .obj g => pyGetField g "title" (.str "")
  | _ => .str (pyStr (pyGetField fs k (.str "")))

/-- Same shape for the `name`-bearing cells of the direct branch. -/
def nameCellDirect (fs : List (String × JVal)) (k : String) : JVal :=
  match pyGetField fs k .null with
  | .obj g => pyGetField g "name" (.str "")
  | _ => .str (pyStr (pyGetField fs k (.str "")))

/-- The JSON:API (`"attributes" in issue`) branch of
`issues_to_dataframe`: all fields except `id` are read from the
`attributes` value, whose `.get` calls raise unless it is a dict. -/
def attrRow (fs : List (String × JVal)) : Except Unit (List JVal) :=
  match pyGetField fs "attributes" (.obj []) with
  | .obj attrs =>
      match titleCellAttr (pyGetField attrs "issueType" (.obj [])) with
      | .error e => .error e
      | .ok issueTypeCell =>
        match nameCellAttr (pyGetField attrs "assignedTo" .null) with
        | .error e => .error e
        | .ok assignedToCell =>
          match nameCellAttr (pyGetField attrs "createdBy" .null) with
          | .error e => .error e
          | .ok createdByCell =>
              .ok [pyGetField fs "id" (.str ""),
                   pyGetField attrs "title" (.str ""),
                   pyGetField attrs "description" (.str ""),
                   issueTypeCell,
                   pyGetField attrs "status" (.str ""),
                   pyGetField attrs "priority" (.str ""),
                   pyGetField attrs "createdAt" (.str ""),
                   pyGetField attrs "updatedAt" (.str ""),
                   assignedToCell,
                   createdByCell,
                   pyGetField attrs "locationDescription" (.str ""),
                   pyGetField attrs "dueDate" (.str "")]
  | _ => .error ()

/-- The direct branch of `issues_to_dataframe`: all fields read from
the top level, with `isinstance`-guarded sub-lookups (never raises). -/
def directRow (fs : List (String × JVal)) : List JVal :=
  [pyGetField fs "id" (.str ""),
   pyGetField fs "title" (.str ""),
   pyGetField fs "description" (.str ""),
   titleCellDirect fs "issueType",
   pyGetField fs "status" (.str ""),
   pyGetField fs "priority" (.str ""),
   pyGetField fs "createdAt" (.str ""),
   pyGetField fs "updatedAt" (.str ""),
   nameCellDirect fs "assignedTo",
   nameCellDirect fs "createdBy",
   pyGetField fs "locationDescription" (.str ""),
   pyGetField fs "dueDate" (.str "")]

/-- One iteration of the `for issue in issues` loop of
`issues_to_dataframe`: branch on `"attributes" in issue`; any
non-dict record raises (at the membership test or at `.get`). -/
def issue_row (issue : JVal) : Except Unit (List JVal) :=
  match issue with
  | .obj fs =>
      if (lookupField fs "attributes").isSome then attrRow fs
      else .ok (directRow fs)
  | _ => .error ()

/-- `issues_to_dataframe`: the rows of all records, in order. -/
def issues_to_dataframe (issues : List JVal) : Except Unit (List (List JVal)) :=
  issues.mapM issue_row

/-!
### Hub-listing response normalization

Embeds the shape dispatch of `IssuesFetcherApp.load_hubs` (`script.py`)
and `load_hubs` (`streamlit_app.py`): this is the fullest incarnation of
the ordered response-shape rules (string, list, dict-with-`data`,
dict-with-only-`error`, single-record dict, otherwise).
-/

/-- The shape dispatch of `script.py`'s `load_hubs`, producing the
`hubs_list` value or the message of the exception it raises.  (`None`
falls to the final `else`, which raises on the unexpected type; the
Python message also embeds `type(...)`, not modelled.) -/
def normalize_hubs_script (body : JVal) : Except String JVal :=
  match body with
  | .str s => .error ("API error: " ++ s)
  | .arr xs => .ok (.arr xs)
  | .obj fs =>
      match lookupField fs "data" with
      | some v => .ok v
      | none =>
        match lookupField fs "error" with
        | some e => .error ("API error: " ++ pyStr e)
        | none =>
            if (lookupField fs "id").isSome && (lookupField fs "attributes").isSome then
              .ok (.arr [body])
            else .error "Unexpected data format from hubs API"
  | .null => .error "Unexpected data type from hubs API"

/-- The shape dispatch of `streamlit_app.py`'s `load_hubs`: same rules
and messages except the string message, and no final `else` — an
unmatched type (e.g. `None`) silently proceeds with the empty list. -/
def normalize_hubs_stream (body : JVal) : Except String JVal :=
  match body with
  | .str s => .error ("API returned string instead of data: " ++ s)
  | .arr xs => .ok (.arr xs)
  | .obj fs =>
      match lookupField fs "data" with
      | some v => .ok v
      | none =>
        match lookupField fs "error" with
        | some e => .error ("API error: " ++ pyStr e)
        | none =>
            if (lookupField fs "id").isSome && (lookupField fs "attributes").isSome then
              .ok (.arr [body])
            else .error "Unexpected data format from hubs API"
  | .null => .ok (.arr [])

/-!
### Helper lemmas
-/

/-- Association-list lookup on the empty dict. -/
theorem lookupField_nil (k : String) : lookupField [] k = none := rfl

/-- Association-list lookup skips an entry with a different key. -/
theorem lookupField_cons_of_ne (k : String) (v : JVal) (fs : List (String × JVal))
    (k2 : String) (h : (k == k2) = false) :
    lookupField ((k, v) :: fs) k2 = lookupField fs k2 := by
  simp [lookupField, List.find?, h]

/-- Association-list lookup finds the head entry. -/
theorem lookupField_cons_self (k : String) (v : JVal) (fs : List (String × JVal)) :
    lookupField ((k, v) :: fs) k = some v := by
  simp [lookupField, List.find?]

/-- `pyGetField` skips an entry with a different key. -/
theorem pyGetField_cons_of_ne (k : String) (v : JVal) (fs : List (String × JVal))
    (k2 : String) (d : JVal) (h : (k == k2) = false) :
    pyGetField ((k, v) :: fs) k2 d = pyGetField fs k2 d := by
  simp [pyGetField, lookupField_cons_of_ne _ _ _ _ h]

/-- On a dict value, the guarded `name` cell of the JSON:API branch
never raises and agrees with an unconditional `.get("name", "")` (the
falsy empty dict gives `""` either way). -/
theorem nameCellAttr_obj (g : List (String × JVal)) :
    nameCellAttr (.obj g) = .ok (pyGetField g "name" (.str "")) := by
  cases g with
  | nil => rfl
  | cons a tl => rfl

/-- `scanScopes` on a list of strings never raises and returns the first
match, with every marker occurrence removed. -/
theorem scanScopes_map_str (xs : List String) :
    scanScopes (xs.map JVal.str) =
      .ok ((xs.find? (fun s => pyStartsWith s "b360project.")).map
        (fun s => pyReplace s "b360project." "")) := by
  induction xs with
  | nil => rfl
  | cons x rest ih =>
      by_cases h : pyStartsWith x "b360project." = true
      · simp [scanScopes, List.find?, h]
      · simp only [Bool.not_eq_true] at h
        simp [scanScopes, List.find?, h, ih]

/-- Whether an optional field value is absent or a dict — the shapes on
which the two `issues_to_dataframe` branches treat a nested
`title`/`name`-bearing field identically. -/
def objOrAbsent : Option JVal → Bool
  | none => true
  | some (.obj _) => true
  | some _ => false

/-- The `issueType` cell computed by the two branches agrees whenever
the field is absent or a dict. -/
theorem titleCell_agree (fields : List (String × JVal))
    (hit : objOrAbsent (lookupField fields "issueType") = true) :
    titleCellAttr (pyGetField fields "issueType" (.obj []))
      = .ok (titleCellDirect fields "issueType") := by
  cases h : lookupField fields "issueType" with
  | none => simp [titleCellAttr, titleCellDirect, pyGetField, h, pyStr, lookupField_nil]
  | some v =>
      cases v with
      | obj g => simp [titleCellAttr, titleCellDirect, pyGetField, h]
      | null => rw [h] at hit; simp [objOrAbsent] at hit
      | str s => rw [h] at hit; simp [objOrAbsent] at hit
      | arr xs => rw [h] at hit; simp [objOrAbsent] at hit

/-- The `assignedTo`/`createdBy` cells computed by the two branches
agree whenever the field is absent or a dict. -/
theorem nameCell_agree (fields : List (String × JVal)) (k : String)
    (hk : objOrAbsent (lookupField fields k) = true) :
    nameCellAttr (pyGetField fields k .null) = .ok (nameCellDirect fields k) := by
  cases h : lookupField fields k with
  | none => simp [nameCellAttr, nameCellDirect, pyGetField, h, pyTruthy, pyStr]
  | some v =>
      cases v with
      | obj g => simp [pyGetField, h, nameCellAttr_obj, nameCellDirect]
      | null => rw [h] at hk; simp [objOrAbsent] at hk
      | str s => rw [h] at hk; simp [objOrAbsent] at hk
      | arr xs => rw [h] at hk; simp [objOrAbsent] at hk

/-- Characterisation of Python truthiness on optional strings. -/
theorem optStrTruthy_iff (o : Option String) :
    optStrTruthy o = true ↔ ∃ s, o = some s ∧ s ≠ "" := by
  cases o with
  | none => simp [optStrTruthy]
  | some s =>
      constructor
      · intro h
        refine ⟨s, rfl, fun he => ?_⟩
        subst he
        exact absurd h (by decide)
      · rintro ⟨t, ht, hne⟩
        injection ht with hst
        subst hst
        show (!s.isEmpty) = true
        cases hh : s.isEmpty with
        | false => simp [hh]
        | true => exact absurd ((String.isEmpty_iff s).mp hh) hne

/-!
### Claim theorems
-/

/-- C1: the spec requires that the token exchange is never reached from
a callback whose `state` differs from the issued state.  The code never
consults the callback `state` at all: a callback carrying
`state="xyz"` while the flow issued `state="gui_auth_state"` still
records the code and drives the flow straight into the Exchanging step
(`exchange_code_for_token`).  This theorem evaluates the embedded flow
at exactly that failing input. -/
theorem oauth_state_mismatch_reaches_exchange :
    List.lookup "state" (authorization_url_params "cid") = some "gui_auth_state"
    ∧ ("xyz" : String) ≠ "gui_auth_state"
    ∧ authenticateFlow [⟨"/callback", [("code", ["somecode"]), ("state", ["xyz"])]⟩]
        = .exchanging "somecode" := by
  refine ⟨by decide, by decide, by decide⟩

/-- C2: in both variants, whenever a request is issued its parameters
are exactly `issuesRequest`: a limit above 200 is clamped to exactly
200, a limit at most 200 is used unchanged, and each optional filter is
present in the parameters precisely when the argument is provided and
non-empty, carrying the provided value. -/
theorem get_issues_limit_clamp_filters (c : String) (hc : c ≠ "")
    (issue_type status_ : Option String) (limit : Int) (out : NetOutcome) :
    (get_issues_script (some c) issue_type status_ limit out).2
        = some (issuesRequest c issue_type status_ limit)
    ∧ (get_issues_stream (some c) issue_type status_ limit out).2
        = some (issuesRequest c issue_type status_ limit)
    ∧ (200 < limit → (issuesRequest c issue_type status_ limit).limit = 200)
    ∧ (limit ≤ 200 → (issuesRequest c issue_type status_ limit).limit = limit)
    ∧ ((issuesRequest c issue_type status_ limit).filterIssueTypeId.isSome
        ↔ optStrTruthy issue_type = true)
    ∧ (∀ s, issue_type = some s → s ≠ ""
        → (issuesRequest c issue_type status_ limit).filterIssueTypeId = some s)
    ∧ ((issuesRequest c issue_type status_ limit).filterStatus.isSome
        ↔ optStrTruthy status_ = true)
    ∧ (∀ s, status_ = some s → s ≠ ""
        → (issuesRequest c issue_type status_ limit).filterStatus = some s) := by
  have hce : c.isEmpty = false := by
    cases hh : c.isEmpty
    · rfl
    · exact absurd ((String.isEmpty_iff c).mp hh) hc
  refine ⟨?_, ?_, ?_, ?_, ?_, ?_, ?_, ?_⟩
  · simp [get_issues_script, optStrTruthy, hce]
  · simp [get_issues_stream, optStrTruthy, hce]
  · intro h; simp [issuesRequest, h]
  · intro h; simp [issuesRequest]; omega
  · by_cases h : optStrTruthy issue_type = true
    · obtain ⟨s, rfl, _⟩ := (optStrTruthy_iff issue_type).mp h
      simp [issuesRequest, h]
    · simp only [Bool.not_eq_true] at h
      simp [issuesRequest, h]
  · intro s hs hne
    subst hs
    have hse : s.isEmpty = false := by
      cases hh : s.isEmpty
      · rfl
      · exact absurd ((String.isEmpty_iff s).mp hh) hne
    simp [issuesRequest, optStrTruthy, hse]
  · by_cases h : optStrTruthy status_ = true
    · obtain ⟨s, rfl, _⟩ := (optStrTruthy_iff status_).mp h
      simp [issuesRequest, h]
    · simp only [Bool.not_eq_true] at h
      simp [issuesRequest, h]
  · intro s hs hne
    subst hs
    have hse : s.isEmpty = false := by
      cases hh : s.isEmpty
      · rfl
      · exact absurd ((String.isEmpty_iff s).mp hh) hne
    simp [issuesRequest, optStrTruthy, hse]

/-- Witness for C2 at a concrete call: limit 250 is clamped to 200. -/
theorem get_issues_limit_clamp_filters_witness :
    (issuesRequest "cont" (some "t") none 250).limit = 200 :=
  (get_issues_limit_clamp_filters "cont" (by decide) (some "t") none 250 .exn).2.2.1
    (by decide)

/-- C3: every non-success status and every exception during the request
makes both list operations, in both variants, return the empty list; no
exception escapes (the embedded operations are total functions whose
`Except` is consumed at the call site, as the blanket `except` does). -/
theorem list_ops_failure_empty (container_id issue_type status_ : Option String)
    (limit : Int) (out : NetOutcome) (h : netFails out = true) :
    (get_issues_script container_id issue_type status_ limit out).1 = .arr []
    ∧ (get_issues_stream container_id issue_type status_ limit out).1 = .arr []
    ∧ (get_issue_types_script container_id out).1 = .arr []
    ∧ (get_issue_types_stream container_id out).1 = .arr [] := by
  cases out with
  | exn =>
      refine ⟨?_, ?_, ?_, ?_⟩ <;>
        simp [get_issues_script, get_issues_stream, get_issue_types_script,
          get_issue_types_stream] <;> split <;> rfl
  | resp s body =>
      have hs : ¬ s = 200 := by simpa [netFails] using h
      refine ⟨?_, ?_, ?_, ?_⟩ <;>
        simp [get_issues_script, get_issues_stream, get_issue_types_script,
          get_issue_types_stream, hs] <;> split <;> rfl

/-- Witness for C3 at a concrete 404. -/
theorem list_ops_failure_empty_witness :
    (get_issues_script (some "cont") none none 200 (.resp 404 .null)).1 = .arr [] :=
  (list_ops_failure_empty (some "cont") none none 200 (.resp 404 .null) (by decide)).1

/-- C9: with `container_id = None` both list operations, in both
variants, return the empty list and record no outgoing request: the
guard short-circuits before any URL or parameters are built. -/
theorem no_container_no_request (issue_type status_ : Option String) (limit : Int)
    (out : NetOutcome) :
    get_issues_script none issue_type status_ limit out = (.arr [], none)
    ∧ get_issues_stream none issue_type status_ limit out = (.arr [], none)
    ∧ get_issue_types_script none out = (.arr [], none)
    ∧ get_issue_types_stream none out = (.arr [], none) :=
  ⟨rfl, rfl, rfl, rfl⟩

/-- C10: a callback carrying both `code` and `error` takes the success
branch: the first `code` value is recorded, the answer is 200, and the
error slot is left untouched, because the `code` membership test comes
first. -/
theorem callback_code_precedence (st : ServerState) (path : String)
    (query : List (String × List String)) (c : String) (cs es : List String)
    (hp : pyStartsWith path "/callback" = true)
    (hcode : qlookup query "code" = some (c :: cs))
    (_herr : qlookup query "error" = some es) :
    do_GET st path query = ⟨some 200, { st with auth_code := some c }⟩ := by
  simp [do_GET, hp, hcode]

/-- Witness for C10: both parameters present, first code value wins. -/
theorem callback_code_precedence_witness :
    do_GET ⟨none, none⟩ "/callback" [("code", ["abc", "zzz"]), ("error", ["denied"])]
      = ⟨some 200, ⟨some "abc", none⟩⟩ :=
  callback_code_precedence ⟨none, none⟩ "/callback"
    [("code", ["abc", "zzz"]), ("error", ["denied"])] "abc" ["zzz"] ["denied"]
    (by decide) (by decide) (by decide)

/-- C4 counterexample: a GET to the callback path with neither `code`
nor `error` is *not* answered 404 — the handler falls through both
branches and sends no response at all (the outer 404 is only for paths
that do not start with `/callback`).  The outcome slots do stay
unset. -/
theorem callback_no_params_counterexample :
    (do_GET ⟨none, none⟩ "/callback" []).status = none
    ∧ (do_GET ⟨none, none⟩ "/callback" []).status ≠ some 404
    ∧ (do_GET ⟨none, none⟩ "/callback" []).state = ⟨none, none⟩ := by
  refine ⟨rfl, by decide, rfl⟩

/-- C4 amended: on a callback-path GET with neither `code` nor `error`,
the handler sends no response at all (rather than a 404), records no
terminal outcome, and the flow keeps waiting exactly as if the request
had not arrived. -/
theorem callback_no_params_behavior (st : ServerState) (path : String)
    (query : List (String × List String))
    (hp : pyStartsWith path "/callback" = true)
    (hcode : qlookup query "code" = none)
    (herr : qlookup query "error" = none) :
    do_GET st path query = ⟨none, st⟩
    ∧ ∀ rs, runFlow ⟨none, none⟩ (⟨path, query⟩ :: rs) = runFlow ⟨none, none⟩ rs := by
  have key : ∀ s : ServerState, do_GET s path query = ⟨none, s⟩ := by
    intro s
    simp [do_GET, hp, hcode, herr]
  refine ⟨key st, fun rs => ?_⟩
  simp [runFlow, key ⟨none, none⟩, optStrTruthy]

/-- Witness for C4's amended statement at a concrete bare callback. -/
theorem callback_no_params_behavior_witness :
    do_GET ⟨none, none⟩ "/callback" [("state", ["abc"])] = ⟨none, ⟨none, none⟩⟩ :=
  (callback_no_params_behavior ⟨none, none⟩ "/callback" [("state", ["abc"])]
    (by decide) (by decide) (by decide)).1

/-- C7: a response body that is a bare string makes the normalization
fail outright — both `load_hubs` dispatches surface an error carrying
the string, and the `results`/`data` extraction of the list operations
raises at `.get` (consumed by the failure policy) — so no successful
result derived from the string's characters is ever produced. -/
theorem string_body_normalization_fails (s : String) :
    normalize_hubs_script (.str s) = .error ("API error: " ++ s)
    ∧ normalize_hubs_stream (.str s) = .error ("API returned string instead of data: " ++ s)
    ∧ results_data_fallback (.str s) = .error ()
    ∧ script_issues_success (.str s) = .error () :=
  ⟨rfl, rfl, rfl, rfl⟩

/-- C5 counterexample: the code strips with `str.replace`, which
removes **every** occurrence of `"b360project."`, not only the leading
one: on a scope entry containing the marker twice the result differs
from the claimed prefix-strip-only value. -/
theorem container_id_scope_strip_counterexample :
    get_project_container_id "hub" "proj"
        (.resp 200 (mkDetailBody ["b360project.ab360project.c"])) = some "ac"
    ∧ pyDrop "b360project.ab360project.c" ("b360project.".length) = "ab360project.c"
    ∧ ("ac" : String) ≠ "ab360project.c" := by
  refine ⟨by decide, by decide, by decide⟩

/-- C5 amended: on a well-formed detail body, the resolution follows
the ordered rules with the first marker-bearing scope entry having
**every** occurrence of the marker removed (equal to prefix-stripping
whenever the marker occurs only as the leading prefix); otherwise the
two-character `"b."` prefix of the project id is stripped when present;
otherwise — and on every non-200 status or raise — the result is
absent. -/
theorem get_project_container_id_rules (hub_id project_id : String)
    (scopes : List String) (status : Nat) :
    get_project_container_id hub_id project_id (.resp status (mkDetailBody scopes)) =
      (if status = 200 then
        match scopes.find? (fun s => pyStartsWith s "b360project.") with
        | some s => some (pyReplace s "b360project." "")
        | none =>
            if pyStartsWith project_id "b." then some (pyDrop project_id 2) else none
      else none)
    ∧ get_project_container_id hub_id project_id .exn = none := by
  refine ⟨?_, rfl⟩
  by_cases hs : status = 200
  · subst hs
    simp only [get_project_container_id, if_pos rfl]
    cases scopes with
    | nil =>
        simp [detail_success, mkDetailBody, pyGet, lookupField, List.find?, pyTruthy]
    | cons x rest =>
        have htr : pyTruthy (.arr ((x :: rest).map JVal.str)) = true := by
          simp [pyTruthy]
        simp only [detail_success, mkDetailBody, pyGet, lookupField_cons_self,
          Option.getD_some, htr, if_pos, iterScopes, scanScopes_map_str]
        cases hf : (x :: rest).find? (fun s => pyStartsWith s "b360project.") with
        | none => simp [hf, lookupField, List.find?]
        | some s => simp [hf, lookupField, List.find?]
  · simp [get_project_container_id, hs]

/-- C6 counterexample: the desktop variant's 200 branch inspects the
first records for console logging, and that inspection raises on a
non-dict record (`"attributes" in None` is a `TypeError`), so a body
`{results: [null]}` makes `get_issues` return `[]` instead of the
non-empty `results` value the claim promises. -/
theorem results_fallback_counterexample :
    (get_issues_script (some "cont") none none 200
        (.resp 200 (.obj [("results", .arr [.null])]))).1 = .arr []
    ∧ JVal.arr [] ≠ .arr [.null] := by
  refine ⟨rfl, by simp⟩

/-- C6 amended: the extraction follows the results-then-data fallback
order as claimed — a non-empty `results` list is used, an empty one
falls back to the `data` value — and the web variant returns that list
unconditionally; the desktop variant returns it provided its logging
probe of the first three records does not raise (each of them a dict
whose `attributes` value, if present, is a dict), otherwise it yields
the empty list. -/
theorem results_data_fallback_order (rs ds : List JVal)
    (hprobe : probeAll ((if rs.isEmpty then ds else rs).take 3) = .ok ()) :
    results_data_fallback (.obj [("results", .arr rs), ("data", .arr ds)])
        = .ok (.arr (if rs.isEmpty then ds else rs))
    ∧ script_issues_success (.obj [("results", .arr rs), ("data", .arr ds)])
        = .ok (.arr (if rs.isEmpty then ds else rs))
    ∧ ∀ c : String, c ≠ "" →
        (get_issues_stream (some c) none none 200
            (.resp 200 (.obj [("results", .arr rs), ("data", .arr ds)]))).1
          = .arr (if rs.isEmpty then ds else rs)
        ∧ (get_issues_script (some c) none none 200
            (.resp 200 (.obj [("results", .arr rs), ("data", .arr ds)]))).1
          = .arr (if rs.isEmpty then ds else rs) := by
  have h1 : results_data_fallback (.obj [("results", .arr rs), ("data", .arr ds)])
      = .ok (.arr (if rs.isEmpty then ds else rs)) := by
    cases he : rs.isEmpty with
    | true =>
        have : rs = [] := by
          cases rs with
          | nil => rfl
          | cons a tl => simp at he
        subst this
        simp [results_data_fallback, pyGet, lookupField, List.find?, pyTruthy]
    | false =>
        simp [results_data_fallback, pyGet, lookupField, List.find?, pyTruthy, he]
  have h2 : script_issues_success (.obj [("results", .arr rs), ("data", .arr ds)])
      = .ok (.arr (if rs.isEmpty then ds else rs)) := by
    simp [script_issues_success, h1, probeSlice, hprobe]
  refine ⟨h1, h2, fun c hc => ?_⟩
  have hce : c.isEmpty = false := by
    cases hh : c.isEmpty
    · rfl
    · exact absurd ((String.isEmpty_iff c).mp hh) hc
  constructor
  · simp [get_issues_stream, optStrTruthy, hce, h1]
  · simp [get_issues_script, optStrTruthy, hce, h2]

/-- Witness for C6's amended statement: `{results: [], data: [x]}`
yields `[x]`. -/
theorem results_data_fallback_order_witness :
    results_data_fallback
        (.obj [("results", .arr []), ("data", .arr [.obj [("id", .str "x")]])])
      = .ok (.arr [.obj [("id", .str "x")]]) :=
  (results_data_fallback_order [] [.obj [("id", .str "x")]] (by rfl)).1

/-- C8 counterexample: two records encoding the same logical issue
(`id "1"`, title `"Leaking pipe"`, status `"open"`, `assignedTo` null
in both shapes) flatten to different rows: the direct branch renders
the null `assignedTo` as `str(None) = "None"` while the JSON:API branch
renders it as `""`. -/
theorem issue_row_shape_counterexample :
    issue_row (.obj [("id", .str "1"), ("title", .str "Leaking pipe"),
        ("status", .str "open"), ("assignedTo", .null)])
      = .ok [.str "1", .str "Leaking pipe", .str "", .str "", .str "open", .str "",
             .str "", .str "", .str "None", .str "", .str "", .str ""]
    ∧ issue_row (.obj [("id", .str "1"),
        ("attributes", .obj [("title", .str "Leaking pipe"),
            ("status", .str "open"), ("assignedTo", .null)])])
      = .ok [.str "1", .str "Leaking pipe", .str "", .str "", .str "open", .str "",
             .str "", .str "", .str "", .str "", .str "", .str ""]
    ∧ (JVal.str "None") ≠ .str "" := by
  refine ⟨rfl, rfl, by simp⟩

/-- C8 amended: the two wire shapes of the same logical issue flatten
to identical twelve-column rows provided each of the three
object-valued fields (`issueType`, `assignedTo`, `createdBy`) is either
absent or a dict — a null or bare-string value there makes the
flattenings diverge (or raise), as the counterexample shows. -/
theorem issue_row_shape_roundtrip (idv : JVal) (fields : List (String × JVal))
    (hattr : lookupField fields "attributes" = none)
    (hit : objOrAbsent (lookupField fields "issueType") = true)
    (hassigned : objOrAbsent (lookupField fields "assignedTo") = true)
    (hcreated : objOrAbsent (lookupField fields "createdBy") = true) :
    issue_row (.obj (("id", idv) :: fields))
      = issue_row (.obj [("id", idv), ("attributes", .obj fields)]) := by
  have lAttr : lookupField (("id", idv) :: fields) "attributes" = none := by
    rw [lookupField_cons_of_ne _ _ _ _ (by decide)]
    exact hattr
  have rAttr : lookupField [("id", idv), ("attributes", JVal.obj fields)] "attributes"
      = some (.obj fields) := by
    rw [lookupField_cons_of_ne _ _ _ _ (by decide)]
    exact lookupField_cons_self _ _ _
  have rAttrGet : pyGetField [("id", idv), ("attributes", JVal.obj fields)] "attributes"
      (.obj []) = .obj fields := by
    simp [pyGetField, rAttr]
  simp only [issue_row, lAttr, rAttr, Option.isSome_none, Option.isSome_some,
    Bool.false_eq_true, if_false, if_true, attrRow, rAttrGet]
  rw [titleCell_agree fields hit, nameCell_agree fields "assignedTo" hassigned,
    nameCell_agree fields "createdBy" hcreated]
  simp only [directRow]
  rw [pyGetField_cons_of_ne _ _ _ "title" _ (by decide),
    pyGetField_cons_of_ne _ _ _ "description" _ (by decide),
    pyGetField_cons_of_ne _ _ _ "status" _ (by decide),
    pyGetField_cons_of_ne _ _ _ "priority" _ (by decide),
    pyGetField_cons_of_ne _ _ _ "createdAt" _ (by decide),
    pyGetField_cons_of_ne _ _ _ "updatedAt" _ (by decide),
    pyGetField_cons_of_ne _ _ _ "locationDescription" _ (by decide),
    pyGetField_cons_of_ne _ _ _ "dueDate" _ (by decide)]
  have hidL : pyGetField (("id", idv) :: fields) "id" (.str "") = idv := by
    simp [pyGetField, lookupField_cons_self]
  have hidR : pyGetField [("id", idv), ("attributes", JVal.obj fields)] "id" (.str "")
      = idv := by
    simp [pyGetField, lookupField_cons_self]
  have hitC : titleCellDirect (("id", idv) :: fields) "issueType"
      = titleCellDirect fields "issueType" := by
    unfold titleCellDirect
    rw [pyGetField_cons_of_ne "id" idv fields "issueType" JVal.null (by decide),
      pyGetField_cons_of_ne "id" idv fields "issueType" (JVal.str "") (by decide)]
  have hatC : nameCellDirect (("id", idv) :: fields) "assignedTo"
      = nameCellDirect fields "assignedTo" := by
    unfold nameCellDirect
    rw [pyGetField_cons_of_ne "id" idv fields "assignedTo" JVal.null (by decide),
      pyGetField_cons_of_ne "id" idv fields "assignedTo" (JVal.str "") (by decide)]
  have hcbC : nameCellDirect (("id", idv) :: fields) "createdBy"
      = nameCellDirect fields "createdBy" := by
    unfold nameCellDirect
    rw [pyGetField_cons_of_ne "id" idv fields "createdBy" JVal.null (by decide),
      pyGetField_cons_of_ne "id" idv fields "createdBy" (JVal.str "") (by decide)]
  rw [hidL, hidR, hitC, hatC, hcbC]

/-- Witness for C8's amended statement at the claim's own example
issue. -/
theorem issue_row_shape_roundtrip_witness :
    issue_row (.obj [("id", .str "ISS-1"), ("title", .str "Leaking pipe"),
        ("status", .str "open")])
      = issue_row (.obj [("id", .str "ISS-1"),
          ("attributes", .obj [("title", .str "Leaking pipe"),
              ("status", .str "open")])]) :=
  issue_row_shape_roundtrip (.str "ISS-1")
    [("title", .str "Leaking pipe"), ("status", .str "open")]
    rfl rfl rfl rfl
